import Mathlib

/-
  Shallow embedding of the Readafull AWS CDK infrastructure declarations:
  - config/environment.ts        (EnvironmentConfig, getEnvironmentConfig)
  - lib/storage-stack.ts         (StorageStack: DynamoDB table, S3 audio bucket)
  - lib/monitoring-stack.ts      (MonitoringStack: log groups, alarms, SNS topic)
  - bin/readafull.ts             (stack dependency wiring)
  - scripts/destroy.sh           (destroy confirmation check)
  The stacks are purely declarative: each stack constructor is embedded as a
  pure function from the environment configuration to the record of resource
  declarations it emits.
-/

/-- Embeds the `cognito` field group of `EnvironmentConfig` (config/environment.ts). -/
structure CognitoConfig where
  userPoolName : String
  allowedCallbackURLs : List String
  allowedLogoutURLs : List String
deriving DecidableEq, Repr

/-- Embeds the `dynamodb` field group of `EnvironmentConfig`. The TypeScript
billing-mode union is the two literals below. -/
inductive BillingModeName where
  | payPerRequest
  | provisioned
deriving DecidableEq, Repr

/-- Embeds the `dynamodb` field group of `EnvironmentConfig`. -/
structure DynamoDBConfig where
  tableName : String
  billingMode : BillingModeName
deriving DecidableEq, Repr

/-- Embeds the `s3` field group of `EnvironmentConfig`. -/
structure S3Config where
  audioBucketName : String
  lifecycleDays : Nat
deriving DecidableEq, Repr

/-- Embeds the `api` field group of `EnvironmentConfig`. -/
structure ApiConfig where
  throttleRateLimit : Nat
  throttleBurstLimit : Nat
deriving DecidableEq, Repr

/-- Embeds the `lambda` field group of `EnvironmentConfig`; `timeout` is in seconds. -/
structure LambdaConfig where
  memorySize : Nat
  timeout : Nat
  runtime : String
deriving DecidableEq, Repr

/-- Embeds the `monitoring` field group of `EnvironmentConfig`. -/
structure MonitoringConfig where
  enableXRay : Bool
  logRetentionDays : Nat
  alarmEmail : Option String
deriving DecidableEq, Repr

/-- Embeds `EnvironmentConfig` from config/environment.ts. The `environment`
field is the TypeScript string-literal union, kept as a string; the source
field `stackPrefix` is embedded as `stackPrefixName`. -/
structure EnvironmentConfig where
  account : Option String
  region : String
  environment : String
  appName : String
  stackPrefixName : String
  cognito : CognitoConfig
  dynamodb : DynamoDBConfig
  s3 : S3Config
  api : ApiConfig
  lambda : LambdaConfig
  monitoring : MonitoringConfig
deriving DecidableEq, Repr

/-- The `development` entry of the `configs` record literal in
`getEnvironmentConfig` (config/environment.ts). -/
def developmentConfig : EnvironmentConfig :=
  { account := none
    region := "us-east-1"
    environment := "development"
    appName := "readafull"
    stackPrefixName := "Readafull-Dev"
    cognito :=
      { userPoolName := "readafull-users-dev"
        allowedCallbackURLs := ["http://localhost:3000/auth/callback"]
        allowedLogoutURLs := ["http://localhost:3000/"] }
    dynamodb :=
      { tableName := "readafull-main-table-dev"
        billingMode := BillingModeName.payPerRequest }
    s3 :=
      { audioBucketName := "readafull-audio-storage-dev"
        lifecycleDays := 30 }
    api :=
      { throttleRateLimit := 100
        throttleBurstLimit := 200 }
    lambda :=
      { memorySize := 512
        timeout := 30
        runtime := "nodejs18.x" }
    monitoring :=
      { enableXRay := true
        logRetentionDays := 7
        alarmEmail := none } }

/-- The `staging` entry of the `configs` record literal in `getEnvironmentConfig`. -/
def stagingConfig : EnvironmentConfig :=
  { account := none
    region := "us-east-1"
    environment := "staging"
    appName := "readafull"
    stackPrefixName := "Readafull-Staging"
    cognito :=
      { userPoolName := "readafull-users-staging"
        allowedCallbackURLs := ["https://staging.readafull.com/auth/callback"]
        allowedLogoutURLs := ["https://staging.readafull.com/"] }
    dynamodb :=
      { tableName := "readafull-main-table-staging"
        billingMode := BillingModeName.payPerRequest }
    s3 :=
      { audioBucketName := "readafull-audio-storage-staging"
        lifecycleDays := 60 }
    api :=
      { throttleRateLimit := 500
        throttleBurstLimit := 1000 }
    lambda :=
      { memorySize := 1024
        timeout := 60
        runtime := "nodejs18.x" }
    monitoring :=
      { enableXRay := true
        logRetentionDays := 14
        alarmEmail := none } }

/-- The `production` entry of the `configs` record literal in `getEnvironmentConfig`. -/
def productionConfig : EnvironmentConfig :=
  { account := none
    region := "us-east-1"
    environment := "production"
    appName := "readafull"
    stackPrefixName := "Readafull-Prod"
    cognito :=
      { userPoolName := "readafull-users-prod"
        allowedCallbackURLs := ["https://readafull.com/auth/callback"]
        allowedLogoutURLs := ["https://readafull.com/"] }
    dynamodb :=
      { tableName := "readafull-main-table-prod"
        billingMode := BillingModeName.payPerRequest }
    s3 :=
      { audioBucketName := "readafull-audio-storage-prod"
        lifecycleDays := 90 }
    api :=
      { throttleRateLimit := 1000
        throttleBurstLimit := 2000 }
    lambda :=
      { memorySize := 1024
        timeout := 60
        runtime := "nodejs18.x" }
    monitoring :=
      { enableXRay := true
        logRetentionDays := 30
        alarmEmail := some "alerts@readafull.com" } }

/-- The three configuration records the resolver's `configs` object holds as
its own properties, in declaration order. -/
def resolverConfigs : List EnvironmentConfig :=
  [developmentConfig, stagingConfig, productionConfig]

/-- Own-property lookup on the `configs` object literal of
`getEnvironmentConfig`: the literal declares exactly the keys
`development`, `staging` and `production`. -/
def configsOwn (key : String) : Option EnvironmentConfig :=
  if key = "development" then some developmentConfig
  else if key = "staging" then some stagingConfig
  else if key = "production" then some productionConfig
  else none

/-- Property names every plain JavaScript object literal inherits from
`Object.prototype` (methods, plus the `__proto__` accessor). Bracket access
`configs[key]` on the `configs` literal with one of these keys yields the
inherited member, which is a function or object and hence truthy, so the
`|| configs.development` fallback in the source does not fire for them. -/
def objectPrototypeMemberNames : List String :=
  ["constructor", "hasOwnProperty", "isPrototypeOf", "propertyIsEnumerable",
   "toLocaleString", "toString", "valueOf", "__proto__",
   "__defineGetter__", "__defineSetter__", "__lookupGetter__", "__lookupSetter__"]

/-- Result of the JavaScript expression `configs[env] || configs.development`:
either an `EnvironmentConfig` record, or a member inherited from
`Object.prototype` (a function or object value, not a configuration record). -/
inductive EnvLookupResult where
  | config (c : EnvironmentConfig)
  | inheritedMember (name : String)
deriving DecidableEq, Repr

/-- Embeds `getEnvironmentConfig` (config/environment.ts):
`const env = environment || 'development'` (the only falsy string is the
empty string), then `return configs[env] || configs.development` under
JavaScript property-lookup semantics: an own key hits its record; a key
inherited from `Object.prototype` hits the inherited (truthy) member; any
other key yields `undefined` (falsy) and falls back to the development record. -/
def getEnvironmentConfig (environment : String) : EnvLookupResult :=
  let env := if environment = "" then "development" else environment
  match configsOwn env with
  | some c => EnvLookupResult.config c
  | none =>
      if env ∈ objectPrototypeMemberNames then EnvLookupResult.inheritedMember env
      else EnvLookupResult.config developmentConfig

/-- CDK `RemovalPolicy` values used by the stacks. -/
inductive RemovalPolicyName where
  | retain
  | destroy
deriving DecidableEq, Repr

/-- DynamoDB attribute type used by the table declaration. -/
inductive AttributeTypeName where
  | string
deriving DecidableEq, Repr

/-- A DynamoDB key schema element (`name` and `type` in the CDK props). -/
structure KeyAttribute where
  name : String
  type : AttributeTypeName
deriving DecidableEq, Repr

/-- A global secondary index declaration (`addGlobalSecondaryIndex` props). -/
structure GsiDecl where
  indexName : String
  partitionKey : KeyAttribute
  sortKey : KeyAttribute
  projectionAll : Bool
deriving DecidableEq, Repr

/-- The DynamoDB table declaration emitted by `StorageStack` (lib/storage-stack.ts). -/
structure TableDecl where
  tableName : String
  partitionKey : KeyAttribute
  sortKey : KeyAttribute
  billingMode : BillingModeName
  encryptionAwsManaged : Bool
  pointInTimeRecovery : Bool
  removalPolicy : RemovalPolicyName
  globalSecondaryIndexes : List GsiDecl
deriving DecidableEq, Repr

/-- Embeds `StorageStack.mainTable`: the `new dynamodb.Table(...)` declaration
plus the single `addGlobalSecondaryIndex` call, as functions of the
environment configuration. -/
def mainTable (config : EnvironmentConfig) : TableDecl :=
  { tableName := config.dynamodb.tableName
    partitionKey := { name := "PK", type := AttributeTypeName.string }
    sortKey := { name := "SK", type := AttributeTypeName.string }
    billingMode :=
      if config.dynamodb.billingMode = BillingModeName.payPerRequest then
        BillingModeName.payPerRequest
      else BillingModeName.provisioned
    encryptionAwsManaged := true
    pointInTimeRecovery := config.environment = "production"
    removalPolicy :=
      if config.environment = "production" then RemovalPolicyName.retain
      else RemovalPolicyName.destroy
    globalSecondaryIndexes :=
      [{ indexName := "GSI1"
         partitionKey := { name := "GSI1PK", type := AttributeTypeName.string }
         sortKey := { name := "GSI1SK", type := AttributeTypeName.string }
         projectionAll := true }] }

/-- S3 storage classes used by the lifecycle transition. -/
inductive StorageClassName where
  | intelligentTiering
deriving DecidableEq, Repr

/-- One lifecycle transition (`storageClass`, `transitionAfter` in days). -/
structure LifecycleTransition where
  storageClass : StorageClassName
  transitionAfterDays : Nat
deriving DecidableEq, Repr

/-- One lifecycle rule of the audio bucket (`expiration` in days). -/
structure LifecycleRule where
  id : String
  enabled : Bool
  expirationDays : Nat
  transitions : List LifecycleTransition
deriving DecidableEq, Repr

/-- One CORS rule of the audio bucket. -/
structure CorsRule where
  allowedMethods : List String
  allowedOrigins : List String
  allowedHeaders : List String
  maxAge : Nat
deriving DecidableEq, Repr

/-- The S3 bucket declaration emitted by `StorageStack` (lib/storage-stack.ts). -/
structure BucketDecl where
  bucketName : String
  encryptionS3Managed : Bool
  blockPublicAccessAll : Bool
  versioned : Bool
  lifecycleRules : List LifecycleRule
  cors : List CorsRule
  removalPolicy : RemovalPolicyName
  autoDeleteObjects : Bool
deriving DecidableEq, Repr

/-- Embeds `StorageStack.audioBucket`: the `new s3.Bucket(...)` declaration as a
function of the environment configuration. -/
def audioBucket (config : EnvironmentConfig) : BucketDecl :=
  { bucketName := config.s3.audioBucketName
    encryptionS3Managed := true
    blockPublicAccessAll := true
    versioned := false
    lifecycleRules :=
      [{ id := "DeleteOldAudioFiles"
         enabled := true
         expirationDays := config.s3.lifecycleDays
         transitions :=
           [{ storageClass := StorageClassName.intelligentTiering
              transitionAfterDays := 30 }] }]
    cors :=
      [{ allowedMethods := ["GET", "PUT", "POST", "DELETE"]
         allowedOrigins := ["*"]
         allowedHeaders := ["*"]
         maxAge := 3000 }]
    removalPolicy :=
      if config.environment = "production" then RemovalPolicyName.retain
      else RemovalPolicyName.destroy
    autoDeleteObjects := config.environment ≠ "production" }

/-- The `RetentionDays` enum of the external `aws-cdk-lib/aws-logs` module that
lib/monitoring-stack.ts indexes into: each member's name paired with its
numeric value (a number of days). No member is named `DAYS_<n>`, and the
reverse numeric mapping a TypeScript numeric enum also carries uses plain
decimal keys such as `7`, so it is never hit by a `DAYS_<n>` key either. -/
def retentionDaysEnum : List (String × Nat) :=
  [("ONE_DAY", 1), ("THREE_DAYS", 3), ("FIVE_DAYS", 5), ("ONE_WEEK", 7),
   ("TWO_WEEKS", 14), ("ONE_MONTH", 30), ("TWO_MONTHS", 60), ("THREE_MONTHS", 90),
   ("FOUR_MONTHS", 120), ("FIVE_MONTHS", 150), ("SIX_MONTHS", 180),
   ("ONE_YEAR", 365), ("THIRTEEN_MONTHS", 400), ("EIGHTEEN_MONTHS", 545),
   ("TWO_YEARS", 731), ("THREE_YEARS", 1096), ("FIVE_YEARS", 1827),
   ("SIX_YEARS", 2192), ("SEVEN_YEARS", 2557), ("EIGHT_YEARS", 2922),
   ("NINE_YEARS", 3288), ("TEN_YEARS", 3653), ("INFINITE", 9999)]

/-- String-keyed member lookup `logs.RetentionDays[key]`, returning the
member's numeric value when the key names a member and nothing otherwise. -/
def retentionDaysLookup (key : String) : Option Nat :=
  (retentionDaysEnum.find? (fun p => p.1 = key)).map Prod.snd

/-- Embeds the log-group retention expression of lib/monitoring-stack.ts:
`RetentionDays["DAYS_" + logRetentionDays] || RetentionDays.ONE_WEEK`.
Every member value in the enum is a positive number (truthy), so the `||`
fallback fires exactly when the lookup misses; `ONE_WEEK` is 7 days. -/
def logGroupRetention (config : EnvironmentConfig) : Nat :=
  (retentionDaysLookup ("DAYS_" ++ toString config.monitoring.logRetentionDays)).getD 7

/-- A log-group declaration of the monitoring stack (one per Lambda function). -/
structure LogGroupDecl where
  logGroupName : String
  retentionDays : Nat
  removalPolicy : RemovalPolicyName
deriving DecidableEq, Repr

/-- Embeds the `lambdaFunctions.forEach` loop of lib/monitoring-stack.ts that
declares one log group per Lambda function, given the functions' names. -/
def monitoringLogGroups (config : EnvironmentConfig) (functionNames : List String) :
    List LogGroupDecl :=
  functionNames.map fun fn =>
    { logGroupName := "/aws/lambda/" ++ fn
      retentionDays := logGroupRetention config
      removalPolicy := RemovalPolicyName.destroy }

/-- CloudWatch metric statistics used by the monitoring stack. -/
inductive StatisticName where
  | sum
  | average
deriving DecidableEq, Repr

/-- CloudWatch alarm comparison operators used by the monitoring stack. -/
inductive ComparisonOperatorName where
  | greaterThanThreshold
deriving DecidableEq, Repr

/-- CloudWatch treat-missing-data policies. -/
inductive TreatMissingDataName where
  | breaching
  | notBreaching
  | ignore
  | missing
deriving DecidableEq, Repr

/-- A CloudWatch metric declaration (`metricErrors` / `metricThrottles` /
`metricDuration` with the given statistic and a 5-minute period). -/
structure MetricDecl where
  metricName : String
  statistic : StatisticName
  periodMinutes : Nat
deriving DecidableEq, Repr

/-- A CloudWatch alarm declaration; `actions` lists the names of the SNS
topics registered through `addAlarmAction`. The threshold is a rational
number since the source computes it with JavaScript number arithmetic. -/
structure AlarmDecl where
  alarmName : String
  metric : MetricDecl
  threshold : ℚ
  evaluationPeriods : Nat
  comparison : ComparisonOperatorName
  treatMissingData : TreatMissingDataName
  actions : List String
deriving DecidableEq, Repr

/-- The name of the SNS alarm topic declared by the monitoring stack. -/
def alarmTopicName (config : EnvironmentConfig) : String :=
  config.stackPrefixName ++ "-alarms"

/-- Embeds the error alarm of lib/monitoring-stack.ts for one Lambda function. -/
def errorAlarm (config : EnvironmentConfig) (functionName : String) : AlarmDecl :=
  { alarmName := config.stackPrefixName ++ "-" ++ functionName ++ "-errors"
    metric := { metricName := "Errors", statistic := StatisticName.sum, periodMinutes := 5 }
    threshold := 10
    evaluationPeriods := 2
    comparison := ComparisonOperatorName.greaterThanThreshold
    treatMissingData := TreatMissingDataName.notBreaching
    actions := [alarmTopicName config] }

/-- Embeds the throttle alarm of lib/monitoring-stack.ts for one Lambda function. -/
def throttleAlarm (config : EnvironmentConfig) (functionName : String) : AlarmDecl :=
  { alarmName := config.stackPrefixName ++ "-" ++ functionName ++ "-throttles"
    metric := { metricName := "Throttles", statistic := StatisticName.sum, periodMinutes := 5 }
    threshold := 5
    evaluationPeriods := 2
    comparison := ComparisonOperatorName.greaterThanThreshold
    treatMissingData := TreatMissingDataName.notBreaching
    actions := [alarmTopicName config] }

/-- Embeds the duration alarm of lib/monitoring-stack.ts for one Lambda
function. The source threshold is `config.lambda.timeout * 1000 * 0.8`; for
the timeouts the configurations use (30 and 60 seconds) the IEEE-double
product rounds to exactly the integer this rational expression denotes
(24000 and 48000 respectively). -/
def durationAlarm (config : EnvironmentConfig) (functionName : String) : AlarmDecl :=
  { alarmName := config.stackPrefixName ++ "-" ++ functionName ++ "-duration"
    metric := { metricName := "Duration", statistic := StatisticName.average, periodMinutes := 5 }
    threshold := (config.lambda.timeout : ℚ) * 1000 * (0.8 : ℚ)
    evaluationPeriods := 2
    comparison := ComparisonOperatorName.greaterThanThreshold
    treatMissingData := TreatMissingDataName.notBreaching
    actions := [alarmTopicName config] }

/-- The three alarms the monitoring stack declares for one Lambda function,
in declaration order (error, throttle, duration). -/
def lambdaAlarms (config : EnvironmentConfig) (functionName : String) : List AlarmDecl :=
  [errorAlarm config functionName,
   throttleAlarm config functionName,
   durationAlarm config functionName]

/-- All alarms declared by the monitoring stack's `forEach` over the Lambda
functions it is given. -/
def monitoringAlarms (config : EnvironmentConfig) (functionNames : List String) :
    List AlarmDecl :=
  (functionNames.map (lambdaAlarms config)).flatten

/-- The four stacks synthesized by bin/readafull.ts. -/
inductive StackId where
  | auth
  | storage
  | api
  | monitoring
deriving DecidableEq, Repr, Fintype

/-- Embeds the `addDependency` wiring of bin/readafull.ts: `dependsOn a b`
holds when the entry point declares that stack `a` depends on stack `b`. -/
def dependsOn : StackId → StackId → Bool
  | StackId.api, StackId.auth => true
  | StackId.api, StackId.storage => true
  | StackId.monitoring, StackId.api => true
  | _, _ => false

/-- A level assignment for the stacks, used to show the dependency wiring is
acyclic: every declared dependency points to a strictly lower level. -/
def stackLevel : StackId → Nat
  | StackId.auth => 0
  | StackId.storage => 0
  | StackId.api => 1
  | StackId.monitoring => 2

/-- Outcome of scripts/destroy.sh: either the stacks of an environment are
destroyed (`cdk destroy --all` runs for that environment) or the script
prints a cancellation message and exits without touching any resource. -/
inductive DestroyOutcome where
  | destroyed (environment : String)
  | cancelled
deriving DecidableEq, Repr

/-- Embeds `ENVIRONMENT=${1:-development}` of scripts/destroy.sh: the first
positional argument, defaulting to `development` when absent or empty. -/
def resolveEnvArg (arg : Option String) : String :=
  match arg with
  | none => "development"
  | some s => if s = "" then "development" else s

/-- Embeds the confirmation check of scripts/destroy.sh: the script destroys
the environment's stacks iff the typed string equals `destroy-<environment>`
exactly (bash `!=` string comparison); otherwise it cancels. -/
def destroyScript (arg : Option String) (confirm : String) : DestroyOutcome :=
  let environment := resolveEnvArg arg
  if confirm = "destroy-" ++ environment then DestroyOutcome.destroyed environment
  else DestroyOutcome.cancelled

/-- Modelled from the spec: the mapping of a numeric days value to "the
nearest supported discrete retention tier" — the enum value at minimal
absolute distance from the requested value (the first such value winning
ties). Stated only to compare with `logGroupRetention`, which is what the
code computes. -/
def specNearestRetentionTier (d : Nat) : Nat :=
  (retentionDaysEnum.map Prod.snd).foldl
    (fun best v => if Nat.dist v d < Nat.dist best d then v else best) 1

/-- Whether a resolver result is a configuration record (as opposed to a
member inherited from `Object.prototype`). -/
def EnvLookupResult.isConfig : EnvLookupResult → Bool
  | EnvLookupResult.config _ => true
  | EnvLookupResult.inheritedMember _ => false

/-- Every declared stack dependency points to a strictly lower level, the key
fact behind acyclicity of the dependency wiring. -/
lemma dependsOn_level_decreasing :
    ∀ a b, dependsOn a b = true → stackLevel b < stackLevel a := by decide

/-- C1: the staging configuration requests 14 retention days, `DAYS_14` names
no member of the retention tier table, and the log group declared for a
Lambda function therefore carries the seven-day fallback tier — not the
14-day tier that the claim's nearest-tier mapping yields for 14. The same
fallback fires for the development (7) and production (30) values, so every
environment's log groups get seven-day retention. -/
theorem C1_staging_log_retention_falls_back_to_seven_days :
    stagingConfig.monitoring.logRetentionDays = 14 ∧
    retentionDaysLookup "DAYS_14" = none ∧
    logGroupRetention stagingConfig = 7 ∧
    specNearestRetentionTier 14 = 14 ∧
    monitoringLogGroups stagingConfig ["translation"] =
      [{ logGroupName := "/aws/lambda/translation"
         retentionDays := 7
         removalPolicy := RemovalPolicyName.destroy }] ∧
    logGroupRetention developmentConfig = 7 ∧
    logGroupRetention productionConfig = 7 ∧
    specNearestRetentionTier 30 = 30 :=
  ⟨rfl, rfl, rfl, rfl, rfl, rfl, rfl, rfl⟩

/-- C2: for every resolver configuration and every Lambda function name, the
monitoring stack declares exactly three alarms, each routed to the shared
SNS topic and evaluated over two consecutive 5-minute periods: an error
alarm with threshold 10 on the Sum statistic, a throttle alarm with
threshold 5 on the Sum statistic, and a duration alarm whose threshold is
80 percent of the configured Lambda timeout in milliseconds — 24000 for the
development timeout of 30 seconds, 48000 for the staging and production
timeouts of 60 seconds. -/
theorem C2_three_alarms_per_function (config : EnvironmentConfig)
    (h : config ∈ resolverConfigs) (fn : String) :
    (lambdaAlarms config fn).length = 3 ∧
    (∀ a ∈ lambdaAlarms config fn,
      a.actions = [alarmTopicName config] ∧ a.evaluationPeriods = 2 ∧
      a.metric.periodMinutes = 5 ∧
      a.comparison = ComparisonOperatorName.greaterThanThreshold) ∧
    (errorAlarm config fn).threshold = 10 ∧
    (errorAlarm config fn).metric.statistic = StatisticName.sum ∧
    (errorAlarm config fn).metric.metricName = "Errors" ∧
    (throttleAlarm config fn).threshold = 5 ∧
    (throttleAlarm config fn).metric.statistic = StatisticName.sum ∧
    (throttleAlarm config fn).metric.metricName = "Throttles" ∧
    (durationAlarm config fn).threshold = (config.lambda.timeout : ℚ) * 1000 * (8 / 10) ∧
    (config.environment = "development" →
      config.lambda.timeout = 30 ∧ (durationAlarm config fn).threshold = 24000) ∧
    (config.environment ≠ "development" →
      config.lambda.timeout = 60 ∧ (durationAlarm config fn).threshold = 48000) := by
  have hmem : ∀ a ∈ lambdaAlarms config fn,
      a.actions = [alarmTopicName config] ∧ a.evaluationPeriods = 2 ∧
      a.metric.periodMinutes = 5 ∧
      a.comparison = ComparisonOperatorName.greaterThanThreshold := by
    intro a ha
    simp only [lambdaAlarms, List.mem_cons, List.not_mem_nil, or_false] at ha
    rcases ha with rfl | rfl | rfl <;> exact ⟨rfl, rfl, rfl, rfl⟩
  simp only [resolverConfigs, List.mem_cons, List.not_mem_nil, or_false] at h
  rcases h with rfl | rfl | rfl
  · exact ⟨rfl, hmem, rfl, rfl, rfl, rfl, rfl, rfl,
      by norm_num [durationAlarm, developmentConfig],
      fun _ => ⟨rfl, by norm_num [durationAlarm, developmentConfig]⟩,
      fun hne => absurd rfl hne⟩
  · exact ⟨rfl, hmem, rfl, rfl, rfl, rfl, rfl, rfl,
      by norm_num [durationAlarm, stagingConfig],
      fun hd => absurd hd (by decide),
      fun _ => ⟨rfl, by norm_num [durationAlarm, stagingConfig]⟩⟩
  · exact ⟨rfl, hmem, rfl, rfl, rfl, rfl, rfl, rfl,
      by norm_num [durationAlarm, productionConfig],
      fun hd => absurd hd (by decide),
      fun _ => ⟨rfl, by norm_num [durationAlarm, productionConfig]⟩⟩

/-- C2 witness: the theorem instantiated at the development configuration and
a concrete function name. -/
theorem C2_three_alarms_per_function_witness :
    developmentConfig ∈ resolverConfigs ∧
    ((lambdaAlarms developmentConfig "text-generation").length = 3 ∧
    (∀ a ∈ lambdaAlarms developmentConfig "text-generation",
      a.actions = [alarmTopicName developmentConfig] ∧ a.evaluationPeriods = 2 ∧
      a.metric.periodMinutes = 5 ∧
      a.comparison = ComparisonOperatorName.greaterThanThreshold) ∧
    (errorAlarm developmentConfig "text-generation").threshold = 10 ∧
    (errorAlarm developmentConfig "text-generation").metric.statistic = StatisticName.sum ∧
    (errorAlarm developmentConfig "text-generation").metric.metricName = "Errors" ∧
    (throttleAlarm developmentConfig "text-generation").threshold = 5 ∧
    (throttleAlarm developmentConfig "text-generation").metric.statistic = StatisticName.sum ∧
    (throttleAlarm developmentConfig "text-generation").metric.metricName = "Throttles" ∧
    (durationAlarm developmentConfig "text-generation").threshold =
      (developmentConfig.lambda.timeout : ℚ) * 1000 * (8 / 10) ∧
    (developmentConfig.environment = "development" →
      developmentConfig.lambda.timeout = 30 ∧
      (durationAlarm developmentConfig "text-generation").threshold = 24000) ∧
    (developmentConfig.environment ≠ "development" →
      developmentConfig.lambda.timeout = 60 ∧
      (durationAlarm developmentConfig "text-generation").threshold = 48000)) :=
  ⟨List.mem_cons_self _ _,
   C2_three_alarms_per_function developmentConfig (List.mem_cons_self _ _) "text-generation"⟩

/-- C3: for every resolver configuration, the DynamoDB main table and the S3
audio bucket are retained on stack deletion exactly when the environment is
production; in every non-production environment both carry the destroy
policy and the bucket auto-deletes its contents. -/
theorem C3_removal_policy_bifurcation (config : EnvironmentConfig)
    (h : config ∈ resolverConfigs) :
    (config.environment = "production" →
      (mainTable config).removalPolicy = RemovalPolicyName.retain ∧
      (audioBucket config).removalPolicy = RemovalPolicyName.retain ∧
      (audioBucket config).autoDeleteObjects = false) ∧
    (config.environment ≠ "production" →
      (mainTable config).removalPolicy = RemovalPolicyName.destroy ∧
      (audioBucket config).removalPolicy = RemovalPolicyName.destroy ∧
      (audioBucket config).autoDeleteObjects = true) := by
  simp only [resolverConfigs, List.mem_cons, List.not_mem_nil, or_false] at h
  rcases h with rfl | rfl | rfl <;> exact ⟨by decide, by decide⟩

/-- C3 witness: the bifurcation evaluated at the production and development
configurations. -/
theorem C3_removal_policy_bifurcation_witness :
    productionConfig ∈ resolverConfigs ∧
    ((mainTable productionConfig).removalPolicy = RemovalPolicyName.retain ∧
      (audioBucket productionConfig).removalPolicy = RemovalPolicyName.retain ∧
      (audioBucket productionConfig).autoDeleteObjects = false) ∧
    ((mainTable developmentConfig).removalPolicy = RemovalPolicyName.destroy ∧
      (audioBucket developmentConfig).removalPolicy = RemovalPolicyName.destroy ∧
      (audioBucket developmentConfig).autoDeleteObjects = true) :=
  ⟨by decide,
   (C3_removal_policy_bifurcation productionConfig (by decide)).1 rfl,
   (C3_removal_policy_bifurcation developmentConfig (by decide)).2 (by decide)⟩

/-- C4: the resolver is not a total fallback to the development record — for
the input `toString` (a property name inherited from `Object.prototype`)
the lookup `configs[env]` returns the inherited member, which is truthy, so
the development fallback never fires and no configuration record is
returned; ordinary unknown selectors such as `qa` and the empty string do
fall back to the development record. -/
theorem C4_prototype_member_leak :
    (getEnvironmentConfig "toString").isConfig = false ∧
    getEnvironmentConfig "toString" = EnvLookupResult.inheritedMember "toString" ∧
    getEnvironmentConfig "constructor" = EnvLookupResult.inheritedMember "constructor" ∧
    getEnvironmentConfig "qa" = EnvLookupResult.config developmentConfig ∧
    getEnvironmentConfig "" = EnvLookupResult.config developmentConfig :=
  ⟨rfl, rfl, rfl, rfl, rfl⟩

/-- C5: for each supported selector the resolver returns the configuration
record whose `environment` field equals the selector. -/
theorem C5_resolver_returns_matching_environment :
    getEnvironmentConfig "development" = EnvLookupResult.config developmentConfig ∧
    developmentConfig.environment = "development" ∧
    getEnvironmentConfig "staging" = EnvLookupResult.config stagingConfig ∧
    stagingConfig.environment = "staging" ∧
    getEnvironmentConfig "production" = EnvLookupResult.config productionConfig ∧
    productionConfig.environment = "production" :=
  ⟨rfl, rfl, rfl, rfl, rfl, rfl⟩

/-- C6: for every resolver configuration, the audio bucket declares exactly
one lifecycle rule, transitioning objects to the Intelligent-Tiering storage
class after 30 days and expiring them after the configuration's
`lifecycleDays` — 30 for development, 60 for staging, 90 for production. -/
theorem C6_audio_bucket_lifecycle (config : EnvironmentConfig)
    (h : config ∈ resolverConfigs) :
    (audioBucket config).lifecycleRules =
      [{ id := "DeleteOldAudioFiles"
         enabled := true
         expirationDays := config.s3.lifecycleDays
         transitions :=
           [{ storageClass := StorageClassName.intelligentTiering
              transitionAfterDays := 30 }] }] ∧
    (config.environment = "development" → config.s3.lifecycleDays = 30) ∧
    (config.environment = "staging" → config.s3.lifecycleDays = 60) ∧
    (config.environment = "production" → config.s3.lifecycleDays = 90) := by
  simp only [resolverConfigs, List.mem_cons, List.not_mem_nil, or_false] at h
  rcases h with rfl | rfl | rfl <;> exact ⟨rfl, by decide, by decide, by decide⟩

/-- C6 witness: the lifecycle rule evaluated at the staging configuration. -/
theorem C6_audio_bucket_lifecycle_witness :
    stagingConfig ∈ resolverConfigs ∧
    ((audioBucket stagingConfig).lifecycleRules =
      [{ id := "DeleteOldAudioFiles"
         enabled := true
         expirationDays := stagingConfig.s3.lifecycleDays
         transitions :=
           [{ storageClass := StorageClassName.intelligentTiering
              transitionAfterDays := 30 }] }] ∧
    (stagingConfig.environment = "development" → stagingConfig.s3.lifecycleDays = 30) ∧
    (stagingConfig.environment = "staging" → stagingConfig.s3.lifecycleDays = 60) ∧
    (stagingConfig.environment = "production" → stagingConfig.s3.lifecycleDays = 90)) ∧
    stagingConfig.s3.lifecycleDays = 60 :=
  ⟨by decide, C6_audio_bucket_lifecycle stagingConfig (by decide), rfl⟩

/-- C7: the destroy script destroys the selected environment's stacks exactly
when the typed confirmation equals `destroy-` followed by the environment
name; any other input (case variations included) yields a cancellation, and
no other environment can ever be destroyed. -/
theorem C7_destroy_confirmation (arg : Option String) (confirm : String) :
    (destroyScript arg confirm = DestroyOutcome.destroyed (resolveEnvArg arg) ↔
      confirm = "destroy-" ++ resolveEnvArg arg) ∧
    (destroyScript arg confirm = DestroyOutcome.cancelled ↔
      confirm ≠ "destroy-" ++ resolveEnvArg arg) ∧
    (∀ e, destroyScript arg confirm = DestroyOutcome.destroyed e →
      e = resolveEnvArg arg ∧ confirm = "destroy-" ++ resolveEnvArg arg) := by
  unfold destroyScript
  by_cases hc : confirm = "destroy-" ++ resolveEnvArg arg
  · simp [hc]
  · simp [hc]

/-- C7 witness: the exact confirmation destroys, a case variation cancels. -/
theorem C7_destroy_confirmation_witness :
    destroyScript (some "production") "destroy-production" =
      DestroyOutcome.destroyed "production" ∧
    destroyScript (some "production") "Destroy-production" = DestroyOutcome.cancelled :=
  ⟨(C7_destroy_confirmation (some "production") "destroy-production").1.mpr (by decide),
   (C7_destroy_confirmation (some "production") "Destroy-production").2.1.mpr (by decide)⟩

/-- C8: the dependency wiring of the entry point is exactly the three edges
API depends on Auth, API depends on Storage, Monitoring depends on API (so
Auth and Storage depend on nothing), and the resulting relation has no
cycle. -/
theorem C8_dependency_graph :
    (∀ a b, dependsOn a b = true ↔
      (a = StackId.api ∧ b = StackId.auth) ∨
      (a = StackId.api ∧ b = StackId.storage) ∨
      (a = StackId.monitoring ∧ b = StackId.api)) ∧
    (∀ a : StackId, ¬ Relation.TransGen (fun x y => dependsOn x y = true) a a) := by
  constructor
  · decide
  · intro a h
    have key : ∀ x y : StackId,
        Relation.TransGen (fun u v => dependsOn u v = true) x y →
        stackLevel y < stackLevel x := by
      intro x y hxy
      induction hxy with
      | single h1 => exact dependsOn_level_decreasing _ _ h1
      | tail _ h2 ih => exact lt_trans (dependsOn_level_decreasing _ _ h2) ih
    exact absurd (key a a h) (lt_irrefl _)

/-- C8 witness: the declared edges, read off through the theorem. -/
theorem C8_dependency_graph_witness :
    dependsOn StackId.api StackId.auth = true ∧
    dependsOn StackId.api StackId.storage = true ∧
    dependsOn StackId.monitoring StackId.api = true ∧
    dependsOn StackId.auth StackId.monitoring = false :=
  ⟨(C8_dependency_graph.1 _ _).mpr (Or.inl ⟨rfl, rfl⟩),
   (C8_dependency_graph.1 _ _).mpr (Or.inr (Or.inl ⟨rfl, rfl⟩)),
   (C8_dependency_graph.1 _ _).mpr (Or.inr (Or.inr ⟨rfl, rfl⟩)),
   rfl⟩

/-- C9: every alarm the monitoring stack declares — error, throttle and
duration, for every configuration and every Lambda function — treats missing
metric data as non-breaching. -/
theorem C9_missing_data_not_breaching (config : EnvironmentConfig)
    (functionNames : List String) :
    ∀ a ∈ monitoringAlarms config functionNames,
      a.treatMissingData = TreatMissingDataName.notBreaching := by
  intro a ha
  simp only [monitoringAlarms, List.mem_flatten, List.mem_map] at ha
  obtain ⟨l, ⟨fn, _, rfl⟩, hal⟩ := ha
  simp only [lambdaAlarms, List.mem_cons, List.not_mem_nil, or_false] at hal
  rcases hal with rfl | rfl | rfl <;> rfl

/-- C9 witness: the error alarm of a concrete function under the development
configuration treats missing data as non-breaching. -/
theorem C9_missing_data_not_breaching_witness :
    (errorAlarm developmentConfig "text-generation").treatMissingData =
      TreatMissingDataName.notBreaching :=
  C9_missing_data_not_breaching developmentConfig ["text-generation"]
    (errorAlarm developmentConfig "text-generation")
    (by simp [monitoringAlarms, lambdaAlarms])

/-- C10: for every resolver configuration, the main table enables
point-in-time recovery exactly when the environment is production. -/
theorem C10_pitr_iff_production (config : EnvironmentConfig)
    (h : config ∈ resolverConfigs) :
    ((mainTable config).pointInTimeRecovery = true ↔
      config.environment = "production") ∧
    (config.environment ≠ "production" →
      (mainTable config).pointInTimeRecovery = false) := by
  simp only [resolverConfigs, List.mem_cons, List.not_mem_nil, or_false] at h
  rcases h with rfl | rfl | rfl <;> exact ⟨by decide, by decide⟩

/-- C10 witness: point-in-time recovery is on for production and off for
development. -/
theorem C10_pitr_iff_production_witness :
    productionConfig ∈ resolverConfigs ∧
    (mainTable productionConfig).pointInTimeRecovery = true ∧
    (mainTable developmentConfig).pointInTimeRecovery = false :=
  ⟨by decide,
   (C10_pitr_iff_production productionConfig (by decide)).1.mpr rfl,
   (C10_pitr_iff_production developmentConfig (by decide)).2 (by decide)⟩
